import Mathlib

/-!
Verification of the deferred-rendering core of the `three-d` repository.

The development shallowly embeds the Rust sources:

* `src/core/render_target.rs` (ClearState and its application),
* `src/core/render_target/render_target2d_array.rs` (RenderTargetArray),
* `src/core/mesh.rs` (Mesh attribute binding, drawing, vertex-shader synthesis),
* `src/shading/deferred_pipeline.rs` (DeferredPipeline geometry and light passes),
* `src/renderer/object/model.rs` and `src/renderer/object/instanced_model.rs`.

Machine floats are modelled by exact rationals; GPU calls are modelled by a
state record plus an explicit event trace.  The graphics context itself is an
external collaborator of the repository, so its clear semantics follow the
spec glossary: a write mask gates, per channel, which color and depth planes a
clear or draw may modify.
-/

namespace ThreeD

/-! ## Graphics-context model (external collaborator) -/

/-- Per-channel boolean write mask (mirrors `WriteMask` used by the core). -/
structure WriteMask where
  red : Bool
  green : Bool
  blue : Bool
  alpha : Bool
  depth : Bool
  deriving Repr, DecidableEq

/-- An RGBA color value, rational-valued stand-in for `f32` components. -/
structure Color4 where
  r : ℚ
  g : ℚ
  b : ℚ
  a : ℚ
  deriving Repr, DecidableEq

/-- One full-screen plane of per-pixel values, indexed by pixel coordinates. -/
def Plane := Nat → Nat → ℚ

/-- Contents of the currently bound framebuffer: four color planes and one
depth plane. -/
structure FBContents where
  red : Plane
  green : Plane
  blue : Plane
  alpha : Plane
  depth : Plane

/-- Modelled from the spec: mutable state of the graphics-context collaborator
that the clear path touches — the write mask, the latched clear values and the
bound framebuffer contents. -/
structure GLContext where
  writeMask : WriteMask
  clearColorVal : Color4
  clearDepthVal : ℚ
  fb : FBContents

/-- Modelled from the spec: `context.set_write_mask`. -/
def glSetWriteMask (m : WriteMask) (c : GLContext) : GLContext :=
  { c with writeMask := m }

/-- Modelled from the spec: `context.clear_color` latches the color clear
value. -/
def glClearColor (r g b a : ℚ) (c : GLContext) : GLContext :=
  { c with clearColorVal := ⟨r, g, b, a⟩ }

/-- Modelled from the spec: `context.clear_depth_f32` latches the depth clear
value. -/
def glClearDepth (d : ℚ) (c : GLContext) : GLContext :=
  { c with clearDepthVal := d }

/-- Modelled from the spec: `context.clear(bits)`.  Per the spec glossary, the
write mask gates which color and depth channels a clear operation is permitted
to modify; a gated-off channel keeps its previous plane. -/
def glClear (colorBit depthBit : Bool) (c : GLContext) : GLContext :=
  { c with fb :=
    { red := if colorBit && c.writeMask.red then fun _ _ => c.clearColorVal.r else c.fb.red
      green := if colorBit && c.writeMask.green then fun _ _ => c.clearColorVal.g else c.fb.green
      blue := if colorBit && c.writeMask.blue then fun _ _ => c.clearColorVal.b else c.fb.blue
      alpha := if colorBit && c.writeMask.alpha then fun _ _ => c.clearColorVal.a else c.fb.alpha
      depth := if depthBit && c.writeMask.depth then fun _ _ => c.clearDepthVal else c.fb.depth } }

/-! ## ClearState — `src/core/render_target.rs` lines 28-136 -/

/-- Five independently optional clear values; `Option.none` preserves the
channel, `some v` clears it to `v`. -/
structure ClearState where
  red : Option ℚ
  green : Option ℚ
  blue : Option ℚ
  alpha : Option ℚ
  depth : Option ℚ
  deriving Repr, DecidableEq

/-- `ClearState::none()`: nothing will be cleared. -/
def ClearState.none : ClearState :=
  ⟨Option.none, Option.none, Option.none, Option.none, Option.none⟩

/-- `ClearState::depth(depth)`. -/
def ClearState.depthOnly (depth : ℚ) : ClearState :=
  ⟨Option.none, Option.none, Option.none, Option.none, some depth⟩

/-- `ClearState::color(red, green, blue, alpha)`. -/
def ClearState.color (red green blue alpha : ℚ) : ClearState :=
  ⟨some red, some green, some blue, some alpha, Option.none⟩

/-- `ClearState::color_and_depth(red, green, blue, alpha, depth)`. -/
def ClearState.color_and_depth (red green blue alpha depth : ℚ) : ClearState :=
  ⟨some red, some green, some blue, some alpha, some depth⟩

/-- `ClearState::default()` = `color_and_depth(0, 0, 0, 1, 1)`. -/
def ClearState.default : ClearState :=
  ClearState.color_and_depth 0 0 0 1 1

/-- `ClearState::apply` (`render_target.rs` lines 95-129): set the write mask
from per-channel presence, latch the clear values that are present, then issue
one combined clear call whose buffer bits follow the source-code conditional. -/
def ClearState.apply (s : ClearState) (c : GLContext) : GLContext :=
  let c := glSetWriteMask
    ⟨s.red.isSome, s.green.isSome, s.blue.isSome, s.alpha.isSome, s.depth.isSome⟩ c
  let clear_color := s.red.isSome || s.green.isSome || s.blue.isSome || s.alpha.isSome
  let c := if clear_color then
      glClearColor (s.red.getD 0) (s.green.getD 0) (s.blue.getD 0) (s.alpha.getD 1) c
    else c
  let c := match s.depth with
    | some d => glClearDepth d c
    | Option.none => c
  if clear_color && s.depth.isSome then glClear true true c
  else if clear_color then glClear true false c
  else glClear false true c

/-! ## RenderTargetArray — `src/core/render_target/render_target2d_array.rs` -/

/-- Free function `clear` (`render_target2d_array.rs` lines 137-171); its body
duplicates `ClearState::apply` and is embedded separately for fidelity. -/
def clearRTA (clear_state : ClearState) (c : GLContext) : GLContext :=
  let c := glSetWriteMask
    ⟨clear_state.red.isSome, clear_state.green.isSome, clear_state.blue.isSome,
      clear_state.alpha.isSome, clear_state.depth.isSome⟩ c
  let clear_color := clear_state.red.isSome || clear_state.green.isSome ||
    clear_state.blue.isSome || clear_state.alpha.isSome
  let c := if clear_color then
      glClearColor (clear_state.red.getD 0) (clear_state.green.getD 0)
        (clear_state.blue.getD 0) (clear_state.alpha.getD 1) c
    else c
  let c := match clear_state.depth with
    | some d => glClearDepth d c
    | Option.none => c
  if clear_color && clear_state.depth.isSome then glClear true true c
  else if clear_color then glClear true false c
  else glClear false true c

/-- `RenderTargetArray::write` (`render_target2d_array.rs` lines 73-96):
mask each channel of the requested clear state by presence of the matching
attachment (`Option::and`), clear, then run the render callback.  Binding and
mip-map regeneration touch no base-level pixel, so they are identities here;
`color_layers` and `depth_layer` select attachment layers and do not affect
the flat framebuffer model. -/
def RenderTargetArray.write (hasColorTexture hasDepthTexture : Bool)
    (_color_layers : List Nat) (_depth_layer : Nat) (clear_state : ClearState)
    (render : GLContext → GLContext) (c : GLContext) : GLContext :=
  render (clearRTA
    { red := if hasColorTexture then clear_state.red else Option.none
      green := if hasColorTexture then clear_state.green else Option.none
      blue := if hasColorTexture then clear_state.blue else Option.none
      alpha := if hasColorTexture then clear_state.alpha else Option.none
      depth := if hasDepthTexture then clear_state.depth else Option.none } c)

/-! ## Mesh — `src/core/mesh.rs` -/

/-- Error raised when a program requires a vertex attribute whose buffer the
mesh does not own (`CoreError::MissingMeshBuffer`). -/
inductive CoreError where
  | missingMeshBuffer (name : String)
  deriving Repr, DecidableEq

/-- Binding calls a mesh issues to the graphics context: uniform blocks,
vertex attributes and matrix uniforms. -/
inductive BindEvent where
  | useUniformBlock (name : String)
  | useAttribute (name : String)
  | useUniformMat4 (name : String)
  deriving Repr, DecidableEq

/-- Calls a mesh issues to the graphics context while binding and drawing:
either a binding call or one of the two draw-call primitives. -/
inductive MeshEvent where
  | bind (b : BindEvent)
  | drawElements
  | drawArrays (count : Nat)
  deriving Repr, DecidableEq

/-- Compiled-program introspection: `Program::requires_attribute` reports
whether the shader declares the named attribute (external collaborator). -/
structure Program where
  requiresAttribute : String → Bool

/-- GPU-side mesh as seen by the binding and draw paths: presence of each
optional buffer and the element count of the required position buffer. -/
structure Mesh where
  hasNormalBuffer : Bool
  hasUVBuffer : Bool
  hasColorBuffer : Bool
  hasIndexBuffer : Bool
  positionCount : Nat

/-- `Mesh::use_attributes` (`mesh.rs` lines 153-185): bind the camera uniform
block, then bind each attribute the program requires; requiring an attribute
whose buffer is absent aborts with `MissingMeshBuffer` naming the channel.
Returns the trace of issued calls plus the error, if any. -/
def Mesh.use_attributes (m : Mesh) (program : Program) :
    List BindEvent × Option CoreError :=
  let trace := [BindEvent.useUniformBlock "Camera"]
  let trace := if program.requiresAttribute "position" then
      trace ++ [BindEvent.useAttribute "position"] else trace
  if program.requiresAttribute "uv_coordinates" && !m.hasUVBuffer then
    (trace, some (CoreError.missingMeshBuffer "uv coordinates"))
  else
    let trace := if program.requiresAttribute "uv_coordinates" then
        trace ++ [BindEvent.useAttribute "uv_coordinates"] else trace
    if program.requiresAttribute "normal" && !m.hasNormalBuffer then
      (trace, some (CoreError.missingMeshBuffer "normal"))
    else
      let trace := if program.requiresAttribute "normal" then
          trace ++ [BindEvent.useAttribute "normal"] else trace
      if program.requiresAttribute "color" && !m.hasColorBuffer then
        (trace, some (CoreError.missingMeshBuffer "color"))
      else
        let trace := if program.requiresAttribute "color" then
            trace ++ [BindEvent.useAttribute "color"] else trace
        (trace, Option.none)

/-- `Mesh::draw` (`mesh.rs` lines 121-150): bind attributes, bind the model
matrix, bind the normal matrix when the program requires normals, then issue
an indexed or non-indexed draw; an attribute error propagates before any draw
call is issued. -/
def Mesh.draw (m : Mesh) (program : Program) : List MeshEvent × Option CoreError :=
  match m.use_attributes program with
  | (trace, some e) => (trace.map MeshEvent.bind, some e)
  | (trace, Option.none) =>
    let trace := trace ++ [BindEvent.useUniformMat4 "modelMatrix"]
    let trace := if program.requiresAttribute "normal" then
        trace ++ [BindEvent.useUniformMat4 "normalMatrix"] else trace
    if m.hasIndexBuffer then
      (trace.map MeshEvent.bind ++ [MeshEvent.drawElements], Option.none)
    else
      (trace.map MeshEvent.bind ++ [MeshEvent.drawArrays (m.positionCount / 3)],
        Option.none)

/-- First attribute channel, in the source-code order uv/normal/color, that
the program requires and the mesh lacks. -/
def Mesh.firstMissingChannel (m : Mesh) (program : Program) : Option String :=
  if program.requiresAttribute "uv_coordinates" && !m.hasUVBuffer then
    some "uv coordinates"
  else if program.requiresAttribute "normal" && !m.hasNormalBuffer then
    some "normal"
  else if program.requiresAttribute "color" && !m.hasColorBuffer then
    some "color"
  else Option.none

/-- Predicate: the event is one of the two draw-call primitives. -/
def MeshEvent.isDrawCall : MeshEvent → Bool
  | MeshEvent.bind _ => false
  | MeshEvent.drawElements => true
  | MeshEvent.drawArrays _ => true

/-! ## Vertex-shader synthesis — `src/core/mesh.rs` lines 187-213 -/

/-- Rust `str::find` for a literal needle: byte offset of the first occurrence
of `needle` in `hay`, if any (sources here are ASCII, so char indexing agrees
with byte indexing). -/
def strFind (needle : List Char) : List Char → Option Nat
  | [] => if needle = [] then some 0 else Option.none
  | c :: rest =>
    if needle.isPrefixOf (c :: rest) then some 0
    else (strFind needle rest).map (· + 1)

/-- Sentinel scanned for to enable positions. -/
def posSentinel : List Char := "in vec3 pos;".toList

/-- Sentinel scanned for to enable normals. -/
def norSentinel : List Char := "in vec3 nor;".toList

/-- Sentinel scanned for to enable uv coordinates. -/
def uvsSentinel : List Char := "in vec2 uvs;".toList

/-- Sentinel scanned for to enable vertex colors. -/
def colSentinel : List Char := "in vec4 col;".toList

/-- Define directive emitted for positions. -/
def usePositionsDefine : List Char := "#define USE_POSITIONS\n".toList

/-- Define directive emitted for normals. -/
def useNormalsDefine : List Char := "#define USE_NORMALS\n".toList

/-- Define directive emitted for uv coordinates. -/
def useUVsDefine : List Char := "#define USE_UVS\n".toList

/-- Define directive emitted for vertex colors. -/
def useColorsDefine : List Char := "#define USE_COLORS\n".toList

/-- `Mesh::vertex_shader_source` (`mesh.rs` lines 187-213), parameterised by
the text of the two files spliced in at compile time (`shared.frag` and
`mesh.vert`, which are not part of the given sources): scan the fragment
shader for the four sentinel markers and emit the matching define directives,
in the fixed source order, followed by the shared and vertex shader text. -/
def Mesh.vertex_shader_source (sharedFrag meshVert : List Char)
    (fragment_shader_source : List Char) : List Char :=
  let use_positions := (strFind posSentinel fragment_shader_source).isSome
  let use_normals := (strFind norSentinel fragment_shader_source).isSome
  let use_uvs := (strFind uvsSentinel fragment_shader_source).isSome
  let use_colors := (strFind colSentinel fragment_shader_source).isSome
  (if use_positions then usePositionsDefine else []) ++
    ((if use_normals then useNormalsDefine else []) ++
      ((if use_uvs then useUVsDefine else []) ++
        ((if use_colors then useColorsDefine else []) ++ (sharedFrag ++ meshVert))))

/-- Containment of `needle` as a contiguous substring of `hay`, stated
structurally; this is the notion the spec sentence uses. -/
def occursIn (needle hay : List Char) : Prop :=
  ∃ pre post, hay = pre ++ needle ++ post

/-! ## Deferred pipeline light pass — `src/shading/deferred_pipeline.rs` -/

/-- A 4 by 4 matrix over exact rationals, standing in for `Mat4` of the math
collaborator (cgmath). -/
abbrev Mat4Q := Matrix (Fin 4) (Fin 4) ℚ

/-- Modelled from the spec: cgmath `Matrix4::invert` of the external math
collaborator returns `None` exactly on a singular matrix and otherwise the
inverse, computed as the adjugate over the determinant. -/
def cgInvert (m : Mat4Q) : Option Mat4Q :=
  if m.det = 0 then Option.none else some (m.det⁻¹ • m.adjugate)

/-- Debug channel selector (`deferred_pipeline.rs` lines 13-23). -/
inductive DebugType where
  | POSITION
  | NORMAL
  | COLOR
  | DEPTH
  | DIFFUSE
  | SPECULAR
  | POWER
  | NONE
  deriving Repr, DecidableEq

/-- Rust `self.debug_type as i32`: the discriminant in declaration order. -/
def DebugType.code : DebugType → Int
  | DebugType.POSITION => 0
  | DebugType.NORMAL => 1
  | DebugType.COLOR => 2
  | DebugType.DEPTH => 3
  | DebugType.DIFFUSE => 4
  | DebugType.SPECULAR => 5
  | DebugType.POWER => 6
  | DebugType.NONE => 7

/-- Modelled from the spec: the lighting-model selector that specialises the
generated light-pass shader; the type lives in shading code not among the
given sources, and the pipeline constructor defaults it to `Blinn`. -/
inductive LightingModel where
  | Phong
  | Blinn
  | Cook
  deriving Repr, DecidableEq

/-- Ambient light (external collaborator); the payload is opaque data. -/
structure AmbientLight where
  data : Nat
  deriving Repr, DecidableEq

/-- Directional light (external collaborator); the payload is opaque data. -/
structure DirectionalLight where
  data : Nat
  deriving Repr, DecidableEq

/-- Spot light (external collaborator); the payload is opaque data. -/
structure SpotLight where
  data : Nat
  deriving Repr, DecidableEq

/-- Point light (external collaborator); the payload is opaque data. -/
structure PointLight where
  data : Nat
  deriving Repr, DecidableEq

/-- A 3-component rational vector for the camera position. -/
structure Vec3Q where
  x : ℚ
  y : ℚ
  z : ℚ
  deriving Repr, DecidableEq

/-- Viewport dimensions in pixels. -/
structure Viewport where
  width : Nat
  height : Nat
  deriving Repr, DecidableEq

/-- Camera fields read by the light pass (external collaborator): viewport,
projection and view matrices, and world position. -/
structure Camera where
  viewport : Viewport
  projection : Mat4Q
  view : Mat4Q
  position : Vec3Q

/-- Modelled from the spec: `shaded_fragment_shader` of the shading module
(not among the given sources) derives a fragment shader source text
specialised by the lighting model and the directional/spot/point light-count
triple; the second argument is the optional forward material, passed as
`None` by the light pass. -/
def shaded_fragment_shader (lighting_model : LightingModel)
    (material : Option Unit) (directional_count spot_count point_count : Nat) :
    String :=
  "shaded_fragment[" ++ toString (repr lighting_model) ++ "," ++
    (if material.isSome then "mat" else "nomat") ++ "," ++
    toString directional_count ++ "," ++ toString spot_count ++ "," ++
    toString point_count ++ "]"

/-- Modelled from the spec: the text of the fixed debug-visualization fragment
shader spliced in from `shaders/debug.frag`, a file not among the given
sources; only its identity matters here. -/
def debugFragSource : String := "debug.frag source"

/-- Calls the light pass issues to the graphics context or to the program
cache, in order. -/
inductive LPEvent where
  | compileProgram (source : String)
  | cacheLookup (key : String)
  | cacheInsert (key : String)
  | bindLights (ambient : Option AmbientLight) (directional : List DirectionalLight)
      (spot : List SpotLight) (point : List PointLight) (position : Vec3Q)
  | useTextureArray (name : String)
  | useUniformMat4 (name : String)
  | useUniformInt (name : String) (value : Int)
  | applyEffect
  deriving Repr, DecidableEq

/-- Persistent light-pass state of `DeferredPipeline`: the program cache
(keyed by full fragment-shader source; the compiled program values are opaque
and omitted), the lazily created debug effect, and the two public knobs. -/
structure DeferredPipeline where
  program_map : List String
  debug_effect : Bool
  debug_type : DebugType
  lighting_model : LightingModel
  deriving Repr, DecidableEq

/-- `DeferredPipeline::light_pass` (`deferred_pipeline.rs` lines 135-211).
In debug mode: lazily compile the debug effect, bind the inverse
view-projection matrix (an unchecked unwrap, `Option.none` result modelling
the panic on a singular matrix), bind the two geometry textures and the
channel selector, apply, and return without touching the lights or the
program cache.  Otherwise: derive the fragment shader source from the
lighting model and the light-count triple, look it up in the cache by exact
string equality compiling and inserting on miss, bind the lights and the
geometry textures, bind the inverse view-projection matrix only when some
directional, spot or point light is present, and apply one full-screen
effect. -/
def DeferredPipeline.light_pass (s : DeferredPipeline) (camera : Camera)
    (ambient_light : Option AmbientLight)
    (directional_lights : List DirectionalLight) (spot_lights : List SpotLight)
    (point_lights : List PointLight) :
    Option (DeferredPipeline × List LPEvent) :=
  if s.debug_type ≠ DebugType.NONE then
    let pair := if s.debug_effect then (s, ([] : List LPEvent))
      else ({ s with debug_effect := true },
        [LPEvent.compileProgram debugFragSource])
    match cgInvert (camera.projection * camera.view) with
    | Option.none => Option.none
    | some _ =>
      some (pair.1, pair.2 ++
        [LPEvent.useUniformMat4 "viewProjectionInverse",
          LPEvent.useTextureArray "gbuffer", LPEvent.useTextureArray "depthMap",
          LPEvent.useUniformInt "type" s.debug_type.code, LPEvent.applyEffect])
  else
    let fragment_shader := shaded_fragment_shader s.lighting_model Option.none
      directional_lights.length spot_lights.length point_lights.length
    let pair :=
      if fragment_shader ∈ s.program_map then
        (s, [LPEvent.cacheLookup fragment_shader])
      else
        ({ s with program_map := fragment_shader :: s.program_map },
          [LPEvent.cacheLookup fragment_shader,
            LPEvent.compileProgram fragment_shader,
            LPEvent.cacheInsert fragment_shader])
    let trace := pair.2 ++
      [LPEvent.cacheLookup fragment_shader,
        LPEvent.bindLights ambient_light directional_lights spot_lights
          point_lights camera.position,
        LPEvent.useTextureArray "gbuffer", LPEvent.useTextureArray "depthMap"]
    if !directional_lights.isEmpty || !spot_lights.isEmpty ||
        !point_lights.isEmpty then
      match cgInvert (camera.projection * camera.view) with
      | Option.none => Option.none
      | some _ =>
        some (pair.1, trace ++
          [LPEvent.useUniformMat4 "viewProjectionInverse", LPEvent.applyEffect])
    else
      some (pair.1, trace ++ [LPEvent.applyEffect])

/-- Names carried by the matrix-uniform binding events of a trace. -/
def uniformMat4Names (trace : List LPEvent) : List String :=
  trace.filterMap fun e => match e with
    | LPEvent.useUniformMat4 name => some name
    | _ => Option.none

/-- One light-pass invocation: the camera and the four light arguments. -/
structure LPCall where
  camera : Camera
  ambient : Option AmbientLight
  directional : List DirectionalLight
  spot : List SpotLight
  point : List PointLight

/-- Runs a sequence of light-pass calls, threading the pipeline state;
`Option.none` when some call panics. -/
def DeferredPipeline.runLightPasses (s : DeferredPipeline) :
    List LPCall → Option DeferredPipeline
  | [] => some s
  | c :: rest =>
    match s.light_pass c.camera c.ambient c.directional c.spot c.point with
    | Option.none => Option.none
    | some q => q.1.runLightPasses rest

/-! ## Deferred pipeline geometry pass — `src/shading/deferred_pipeline.rs`
lines 83-127 -/

/-- Camera fields read by the geometry pass, over an abstract bounding-box
type `β`: the viewport and the frustum test `camera.in_frustum` (an external
collaborator). -/
structure GeoCamera (β : Type) where
  viewport : Viewport
  in_frustum : β → Bool

/-- A shaded geometry as the geometry pass sees it: an identifier and the
optional axis-aligned bounding box reported by `geometry.aabb()`. -/
structure Geom (β : Type) where
  id : Nat
  aabb : Option β

/-- The color array texture of the geometry buffer: dimensions, layer count
and a per-layer per-pixel plane of RGBA values. -/
structure ColorTex where
  width : Nat
  height : Nat
  layers : Nat
  pix : Nat → Nat → Nat → Color4

/-- The depth array texture of the geometry buffer: dimensions, layer count
and a per-layer per-pixel plane of depth values. -/
structure DepthTex where
  width : Nat
  height : Nat
  layers : Nat
  pix : Nat → Nat → Nat → ℚ

/-- The pair of geometry textures bound by the geometry-pass write scope. -/
structure GeoBuffers where
  color : ColorTex
  depth : DepthTex

/-- Freshly allocated geometry textures (`ColorTargetTexture2DArray::new` with
2 layers and `DepthTargetTexture2DArray::new` with 1 layer), sized to the
given dimensions, contents zero-initialised. -/
def allocGeoBuffers (width height : Nat) : GeoBuffers :=
  ⟨⟨width, height, 2, fun _ _ _ => ⟨0, 0, 0, 0⟩⟩,
    ⟨width, height, 1, fun _ _ _ => 0⟩⟩

/-- Clearing the bound geometry-texture layers by a clear state: each channel
with a present clear value is set to it on every bound layer and pixel, per
the write-mask gating of the clear path. -/
def clearGeoBuffers (s : ClearState) (b : GeoBuffers) : GeoBuffers :=
  ⟨{ b.color with pix := fun layer x y =>
      ⟨(s.red.getD (b.color.pix layer x y).r),
        (s.green.getD (b.color.pix layer x y).g),
        (s.blue.getD (b.color.pix layer x y).b),
        (s.alpha.getD (b.color.pix layer x y).a)⟩ },
    { b.depth with pix := fun layer x y => s.depth.getD (b.depth.pix layer x y) }⟩

/-- The frustum-culling test of the geometry pass:
`geometry.aabb().map(|aabb| camera.in_frustum(&aabb)).unwrap_or(true)`. -/
def passesCull {β : Type} (camera : GeoCamera β) (g : Geom β) : Bool :=
  (g.aabb.map camera.in_frustum).getD true

/-- The loop of the geometry-pass write callback: in caller order, draw each
pair whose geometry passes the cull test; the effect of one draw on the
textures is the external `ShadedGeometry::geometry_pass`, supplied as
`drawGeom` (the material is identified by a number). -/
def geometryLoop {β : Type} (drawGeom : Geom β → Nat → GeoBuffers → GeoBuffers)
    (camera : GeoCamera β) : List (Geom β × Nat) → GeoBuffers → GeoBuffers
  | [], b => b
  | p :: rest, b =>
    geometryLoop drawGeom camera rest
      (if passesCull camera p.1 then drawGeom p.1 p.2 b else b)

/-- The pairs the geometry-pass loop actually draws, in order. -/
def drawnGeometries {β : Type} (camera : GeoCamera β) :
    List (Geom β × Nat) → List (Geom β × Nat)
  | [] => []
  | p :: rest =>
    if passesCull camera p.1 then p :: drawnGeometries camera rest
    else drawnGeometries camera rest

/-- Pipeline state the geometry pass reads or writes: the two geometry
textures it owns. -/
structure GeoPassState where
  geometry_pass_texture : ColorTex
  geometry_pass_depth_texture : DepthTex

/-- `DeferredPipeline::geometry_pass` (`deferred_pipeline.rs` lines 83-127):
reallocate the two geometry textures at the camera viewport dimensions (color
with 2 layers, depth with 1), open a write scope on color layers [0, 1] and
depth layer 0 clearing with `ClearState::default()`, and draw the culled
geometries in caller order. -/
def geometry_pass {β : Type} (drawGeom : Geom β → Nat → GeoBuffers → GeoBuffers)
    (camera : GeoCamera β) (geometries : List (Geom β × Nat))
    (_s : GeoPassState) : GeoPassState :=
  let buffers := allocGeoBuffers camera.viewport.width camera.viewport.height
  let buffers := clearGeoBuffers ClearState.default buffers
  let buffers := geometryLoop drawGeom camera geometries buffers
  ⟨buffers.color, buffers.depth⟩

/-! ## InstancedModel — `src/renderer/object/instanced_model.rs` -/

/-- A 4-component rational vector, one cgmath `Vector4` column. -/
structure Vec4Q where
  x : ℚ
  y : ℚ
  z : ℚ
  w : ℚ
  deriving Repr, DecidableEq

/-- A cgmath `Matrix4` as stored: four column vectors x, y, z, w
(column-major). -/
structure CGMat4 where
  x : Vec4Q
  y : Vec4Q
  z : Vec4Q
  w : Vec4Q
  deriving Repr, DecidableEq

/-- Matrix-vector product of the column-major matrix (external math
collaborator). -/
def CGMat4.mulVec (m : CGMat4) (v : Vec4Q) : Vec4Q :=
  ⟨m.x.x * v.x + m.y.x * v.y + m.z.x * v.z + m.w.x * v.w,
    m.x.y * v.x + m.y.y * v.y + m.z.y * v.z + m.w.y * v.w,
    m.x.z * v.x + m.y.z * v.y + m.z.z * v.z + m.w.z * v.w,
    m.x.w * v.x + m.y.w * v.y + m.z.w * v.z + m.w.w * v.w⟩

/-- Matrix product, column by column (external math collaborator). -/
def CGMat4.mul (a b : CGMat4) : CGMat4 :=
  ⟨a.mulVec b.x, a.mulVec b.y, a.mulVec b.z, a.mulVec b.w⟩

/-- State of an `InstancedModel` touched by `update_transformations`: the
instance count, the three per-instance row buffers, the local and aggregate
AABBs over an abstract AABB type `β`, the model transform and the stored
per-instance transforms. -/
structure InstancedModelState (β : Type) where
  instance_count : Nat
  instance_buffer1 : List ℚ
  instance_buffer2 : List ℚ
  instance_buffer3 : List ℚ
  aabb_local : β
  aabb : β
  transformation : CGMat4
  transformations : List CGMat4

/-- The packing loop of `update_transformations` (lines 70-88): for each
transform, in order, push the four entries of its first, second and third
matrix rows onto the three row vectors. -/
def packRows : List CGMat4 → List ℚ × List ℚ × List ℚ
  | [] => ([], [], [])
  | t :: rest =>
    let r := packRows rest
    ([t.x.x, t.y.x, t.z.x, t.w.x] ++ r.1,
      [t.x.y, t.y.y, t.z.y, t.w.y] ++ r.2.1,
      [t.x.z, t.y.z, t.z.z, t.w.z] ++ r.2.2)

/-- `InstancedModel::update_aabb` (lines 99-107): union, over every stored
instance transform, of the local AABB transformed by the instance transform
times the model transform; the AABB operations belong to the external math
collaborator and are passed in as `aabbEmpty`, `expand` and `transformAABB`. -/
def InstancedModelState.update_aabb {β : Type} (aabbEmpty : β)
    (expand : β → β → β) (transformAABB : β → CGMat4 → β)
    (s : InstancedModelState β) : InstancedModelState β :=
  { s with aabb := (s.transformations.foldl
      (fun acc t => expand acc (transformAABB s.aabb_local (t.mul s.transformation)))
      aabbEmpty) }

/-- `InstancedModel::update_transformations` (lines 67-93): store the new
matrices, set the instance count (the Rust `usize` to `u32` cast truncates
modulo 2 to the 32), rebuild the three per-instance row buffers in full, and
recompute the aggregate AABB. -/
def InstancedModelState.update_transformations {β : Type} (aabbEmpty : β)
    (expand : β → β → β) (transformAABB : β → CGMat4 → β)
    (ts : List CGMat4) (s : InstancedModelState β) : InstancedModelState β :=
  let rows := packRows ts
  InstancedModelState.update_aabb aabbEmpty expand transformAABB
    { s with
      transformations := ts,
      instance_count := ts.length % 2 ^ 32,
      instance_buffer1 := rows.1,
      instance_buffer2 := rows.2.1,
      instance_buffer3 := rows.2.2 }

/-- First row of a column-major 4 by 4 matrix, 4 entries, as the spec phrases
the packing. -/
def CGMat4.row1 (t : CGMat4) : List ℚ := [t.x.x, t.y.x, t.z.x, t.w.x]

/-- Second row of a column-major 4 by 4 matrix, 4 entries. -/
def CGMat4.row2 (t : CGMat4) : List ℚ := [t.x.y, t.y.y, t.z.y, t.w.y]

/-- Third row of a column-major 4 by 4 matrix, 4 entries. -/
def CGMat4.row3 (t : CGMat4) : List ℚ := [t.x.z, t.y.z, t.z.z, t.w.z]

/-! ## Model and Mesh transformation setters — `src/renderer/object/model.rs`
lines 86-94 and `src/core/mesh.rs` lines 87-90 -/

/-- State of a `Model` touched by `set_transformation`, over an abstract AABB
type `β`. -/
structure ModelState (β : Type) where
  transformation : Mat4Q
  normal_transformation : Mat4Q
  aabb_local : β
  aabb : β

/-- `Model::set_transformation` (`model.rs` lines 87-93): store the new
transform, set the normal matrix to the transpose of the unchecked-unwrapped
inverse (`Option.none` models the panic on a singular matrix), and set the
AABB to the local AABB transformed by the new transform (`transformAABB` is
the external AABB transform). -/
def Model.set_transformation {β : Type} (transformAABB : β → Mat4Q → β)
    (transformation : Mat4Q) (s : ModelState β) : Option (ModelState β) :=
  match cgInvert transformation with
  | Option.none => Option.none
  | some inv =>
    some { s with
      transformation := transformation,
      normal_transformation := inv.transpose,
      aabb := transformAABB s.aabb_local transformation }

/-- State of the deprecated per-mesh transform. -/
structure MeshTransformState where
  transformation : Mat4Q
  normal_transformation : Mat4Q

/-- Deprecated `Mesh::set_transformation` (`mesh.rs` lines 87-90): the same
unchecked inversion, without an AABB update. -/
def Mesh.set_transformation (transformation : Mat4Q) (_s : MeshTransformState) :
    Option MeshTransformState :=
  match cgInvert transformation with
  | Option.none => Option.none
  | some inv => some ⟨transformation, inv.transpose⟩

end ThreeD

namespace ThreeD

/-! ## Theorems -/

/-- C6: whenever the program requires the attribute uv_coordinates, normal or
color and the mesh lacks the matching buffer, `Mesh::use_attributes` (and
hence `Mesh::draw`) fails with a missing-attribute error naming the first
missing channel, and the draw trace contains no draw call. -/
theorem claim_C6_missing_attribute (m : Mesh) (program : Program)
    (h : (program.requiresAttribute "uv_coordinates" = true ∧ m.hasUVBuffer = false) ∨
      (program.requiresAttribute "normal" = true ∧ m.hasNormalBuffer = false) ∨
      (program.requiresAttribute "color" = true ∧ m.hasColorBuffer = false)) :
    ∃ name,
      m.firstMissingChannel program = some name ∧
      ((name = "uv coordinates" ∧ program.requiresAttribute "uv_coordinates" = true ∧
          m.hasUVBuffer = false) ∨
        (name = "normal" ∧ program.requiresAttribute "normal" = true ∧
          m.hasNormalBuffer = false) ∨
        (name = "color" ∧ program.requiresAttribute "color" = true ∧
          m.hasColorBuffer = false)) ∧
      (m.use_attributes program).2 = some (CoreError.missingMeshBuffer name) ∧
      (m.draw program).2 = some (CoreError.missingMeshBuffer name) ∧
      ∀ e ∈ (m.draw program).1, e.isDrawCall = false := by
  have bf : ∀ b : Bool, ¬ b = true → b = false := by decide
  by_cases huv : (program.requiresAttribute "uv_coordinates" && !m.hasUVBuffer) = true
  · obtain ⟨h1, h2⟩ : program.requiresAttribute "uv_coordinates" = true ∧
        m.hasUVBuffer = false := by
      simpa [Bool.and_eq_true, Bool.not_eq_true'] using huv
    refine ⟨"uv coordinates", ?_, Or.inl ⟨rfl, h1, h2⟩, ?_, ?_, ?_⟩
    · simp [Mesh.firstMissingChannel, huv]
    · simp [Mesh.use_attributes, huv]
    · simp [Mesh.draw, Mesh.use_attributes, huv]
    · intro e he
      simp only [Mesh.draw, Mesh.use_attributes, huv, if_true, List.mem_map] at he
      obtain ⟨b, _, rfl⟩ := he
      rfl
  · have huv2 := bf _ huv
    by_cases hno : (program.requiresAttribute "normal" && !m.hasNormalBuffer) = true
    · obtain ⟨h1, h2⟩ : program.requiresAttribute "normal" = true ∧
          m.hasNormalBuffer = false := by
        simpa [Bool.and_eq_true, Bool.not_eq_true'] using hno
      refine ⟨"normal", ?_, Or.inr (Or.inl ⟨rfl, h1, h2⟩), ?_, ?_, ?_⟩
      · simp [Mesh.firstMissingChannel, huv2, hno]
      · simp [Mesh.use_attributes, huv2, hno]
      · simp [Mesh.draw, Mesh.use_attributes, huv2, hno]
      · intro e he
        simp only [Mesh.draw, Mesh.use_attributes, huv2, hno, if_true, if_false,
          Bool.false_eq_true, List.mem_map] at he
        obtain ⟨b, _, rfl⟩ := he
        rfl
    · have hno2 := bf _ hno
      by_cases hco : (program.requiresAttribute "color" && !m.hasColorBuffer) = true
      · obtain ⟨h1, h2⟩ : program.requiresAttribute "color" = true ∧
            m.hasColorBuffer = false := by
          simpa [Bool.and_eq_true, Bool.not_eq_true'] using hco
        refine ⟨"color", ?_, Or.inr (Or.inr ⟨rfl, h1, h2⟩), ?_, ?_, ?_⟩
        · simp [Mesh.firstMissingChannel, huv2, hno2, hco]
        · simp [Mesh.use_attributes, huv2, hno2, hco]
        · simp [Mesh.draw, Mesh.use_attributes, huv2, hno2, hco]
        · intro e he
          simp only [Mesh.draw, Mesh.use_attributes, huv2, hno2, hco, if_true, if_false,
            Bool.false_eq_true, List.mem_map] at he
          obtain ⟨b, _, rfl⟩ := he
          rfl
      · have hco2 := bf _ hco
        exfalso
        rcases h with ⟨hr, hb⟩ | ⟨hr, hb⟩ | ⟨hr, hb⟩
        · rw [hr, hb] at huv2; exact absurd huv2 (by decide)
        · rw [hr, hb] at hno2; exact absurd hno2 (by decide)
        · rw [hr, hb] at hco2; exact absurd hco2 (by decide)

/-- C6 witness: a concrete program requiring the normal attribute against a
concrete mesh without a normal buffer. -/
theorem claim_C6_missing_attribute_witness :
    ((Program.mk fun s => s == "normal").requiresAttribute "normal" = true ∧
      (Mesh.mk false false false false 3).hasNormalBuffer = false) ∧
    ∃ name,
      (Mesh.mk false false false false 3).firstMissingChannel
        (Program.mk fun s => s == "normal") = some name ∧
      ((name = "uv coordinates" ∧
          (Program.mk fun s => s == "normal").requiresAttribute "uv_coordinates" = true ∧
          (Mesh.mk false false false false 3).hasUVBuffer = false) ∨
        (name = "normal" ∧
          (Program.mk fun s => s == "normal").requiresAttribute "normal" = true ∧
          (Mesh.mk false false false false 3).hasNormalBuffer = false) ∨
        (name = "color" ∧
          (Program.mk fun s => s == "normal").requiresAttribute "color" = true ∧
          (Mesh.mk false false false false 3).hasColorBuffer = false)) ∧
      ((Mesh.mk false false false false 3).use_attributes
          (Program.mk fun s => s == "normal")).2 =
        some (CoreError.missingMeshBuffer name) ∧
      ((Mesh.mk false false false false 3).draw (Program.mk fun s => s == "normal")).2 =
        some (CoreError.missingMeshBuffer name) ∧
      ∀ e ∈ ((Mesh.mk false false false false 3).draw
          (Program.mk fun s => s == "normal")).1, e.isDrawCall = false :=
  ⟨⟨by decide, rfl⟩,
    claim_C6_missing_attribute (Mesh.mk false false false false 3)
      (Program.mk fun s => s == "normal") (Or.inr (Or.inl ⟨by decide, rfl⟩))⟩

/-- The drawn-pairs list of the geometry pass is the caller list filtered by
the cull test. -/
theorem drawnGeometries_eq_filter {β : Type} (camera : GeoCamera β)
    (l : List (Geom β × Nat)) :
    drawnGeometries camera l = l.filter (fun p => passesCull camera p.1) := by
  induction l with
  | nil => rfl
  | cons p rest ih =>
    simp only [drawnGeometries, List.filter_cons]
    by_cases h : passesCull camera p.1 = true
    · rw [if_pos h, if_pos h, ih]
    · rw [if_neg h, if_neg h, ih]

/-- The geometry-pass loop is the fold of the external draw over exactly the
drawn pairs, in order. -/
theorem geometryLoop_eq_foldl {β : Type}
    (drawGeom : Geom β → Nat → GeoBuffers → GeoBuffers) (camera : GeoCamera β)
    (l : List (Geom β × Nat)) :
    ∀ b, geometryLoop drawGeom camera l b =
      (drawnGeometries camera l).foldl (fun acc p => drawGeom p.1 p.2 acc) b := by
  induction l with
  | nil => intro b; rfl
  | cons p rest ih =>
    intro b
    simp only [geometryLoop, drawnGeometries]
    by_cases h : passesCull camera p.1 = true
    · rw [if_pos h, if_pos h, ih]
      rfl
    · rw [if_neg h, if_neg h, ih]

/-- C4: the geometry pass draws exactly the caller-supplied pairs whose
geometry reports no AABB or an AABB accepted by the camera frustum test, in
caller order (the drawn list is a sublist of the input — no sorting); a
geometry with an absent AABB is never culled, one whose AABB fails the
frustum test is skipped, and the loop applies the external draw to exactly
the drawn pairs in order. -/
theorem claim_C4_frustum_cull (β : Type) (camera : GeoCamera β)
    (geometries : List (Geom β × Nat)) :
    drawnGeometries camera geometries =
      geometries.filter (fun p => passesCull camera p.1) ∧
    (drawnGeometries camera geometries).Sublist geometries ∧
    (∀ p ∈ geometries, p.1.aabb = Option.none →
      p ∈ drawnGeometries camera geometries) ∧
    (∀ p bb, p.1.aabb = some bb → camera.in_frustum bb = false →
      p ∉ drawnGeometries camera geometries) ∧
    (∀ (drawGeom : Geom β → Nat → GeoBuffers → GeoBuffers) (b : GeoBuffers),
      geometryLoop drawGeom camera geometries b =
        (drawnGeometries camera geometries).foldl
          (fun acc p => drawGeom p.1 p.2 acc) b) := by
  refine ⟨drawnGeometries_eq_filter camera geometries, ?_, ?_, ?_, ?_⟩
  · rw [drawnGeometries_eq_filter]
    exact List.filter_sublist geometries
  · intro p hp hnone
    rw [drawnGeometries_eq_filter]
    refine List.mem_filter.mpr ⟨hp, ?_⟩
    simp [passesCull, hnone]
  · intro p bb hsome hout hmem
    rw [drawnGeometries_eq_filter] at hmem
    have := (List.mem_filter.mp hmem).2
    rw [passesCull, hsome] at this
    simp [hout] at this
  · intro drawGeom b
    exact geometryLoop_eq_foldl drawGeom camera geometries b

/-- C4 witness: a concrete camera accepting only box 1 draws the AABB-less
geometry and skips the out-of-frustum one. -/
theorem claim_C4_frustum_cull_witness :
    ((Geom.mk 1 Option.none, 10) ∈
      drawnGeometries (GeoCamera.mk (Viewport.mk 4 4) (fun bb => bb == 1))
        [(Geom.mk 1 Option.none, 10), (Geom.mk 2 (some 1), 11),
          (Geom.mk 3 (some 2), 12)]) ∧
    ((Geom.mk 3 (some 2), 12) ∉
      drawnGeometries (GeoCamera.mk (Viewport.mk 4 4) (fun bb => bb == 1))
        [(Geom.mk 1 Option.none, 10), (Geom.mk 2 (some 1), 11),
          (Geom.mk 3 (some 2), 12)]) :=
  ⟨(claim_C4_frustum_cull Nat
      (GeoCamera.mk (Viewport.mk 4 4) (fun bb => bb == 1))
      [(Geom.mk 1 Option.none, 10), (Geom.mk 2 (some 1), 11),
        (Geom.mk 3 (some 2), 12)]).2.2.1 _
      (List.mem_cons_self _ _) rfl,
    (claim_C4_frustum_cull Nat
      (GeoCamera.mk (Viewport.mk 4 4) (fun bb => bb == 1))
      [(Geom.mk 1 Option.none, 10), (Geom.mk 2 (some 1), 11),
        (Geom.mk 3 (some 2), 12)]).2.2.2.1 _ 2 rfl rfl⟩

/-- C7: the geometry pass is a pure function of the camera and geometry list
with no hidden per-frame state: its result ignores the prior pipeline state
(so calling it twice in a row with the same arguments yields bit-identical
geometry buffers), it reallocates the color array with 2 layers and the depth
array with 1 layer at the viewport dimensions, and the draw loop starts from
a fully cleared buffer — color (0, 0, 0, 1) and depth 1 at every layer and
pixel — because `ClearState::default()` has every channel present. -/
theorem claim_C7_geometry_pass_pure (β : Type)
    (drawGeom : Geom β → Nat → GeoBuffers → GeoBuffers)
    (camera : GeoCamera β) (geometries : List (Geom β × Nat))
    (s1 s2 : GeoPassState) :
    geometry_pass drawGeom camera geometries s1 =
      geometry_pass drawGeom camera geometries s2 ∧
    geometry_pass drawGeom camera geometries
        (geometry_pass drawGeom camera geometries s1) =
      geometry_pass drawGeom camera geometries s1 ∧
    ClearState.default = ⟨some 0, some 0, some 0, some 1, some 1⟩ ∧
    clearGeoBuffers ClearState.default
        (allocGeoBuffers camera.viewport.width camera.viewport.height) =
      ⟨⟨camera.viewport.width, camera.viewport.height, 2, fun _ _ _ => ⟨0, 0, 0, 1⟩⟩,
        ⟨camera.viewport.width, camera.viewport.height, 1, fun _ _ _ => 1⟩⟩ ∧
    geometry_pass drawGeom camera geometries s1 =
      ⟨(geometryLoop drawGeom camera geometries
          ⟨⟨camera.viewport.width, camera.viewport.height, 2, fun _ _ _ => ⟨0, 0, 0, 1⟩⟩,
            ⟨camera.viewport.width, camera.viewport.height, 1, fun _ _ _ => 1⟩⟩).color,
        (geometryLoop drawGeom camera geometries
          ⟨⟨camera.viewport.width, camera.viewport.height, 2, fun _ _ _ => ⟨0, 0, 0, 1⟩⟩,
            ⟨camera.viewport.width, camera.viewport.height, 1, fun _ _ _ => 1⟩⟩).depth⟩ :=
  ⟨rfl, rfl, rfl, rfl, rfl⟩

/-- The packing loop equals, row by row, the concatenation of the three
matrix rows of each transform in order. -/
theorem packRows_eq (ts : List CGMat4) :
    packRows ts = ((ts.map CGMat4.row1).flatten, (ts.map CGMat4.row2).flatten,
      (ts.map CGMat4.row3).flatten) := by
  induction ts with
  | nil => rfl
  | cons t rest ih =>
    simp [packRows, ih, CGMat4.row1, CGMat4.row2, CGMat4.row3]

/-- Flattening per-matrix 4-entry rows gives 4 entries per instance. -/
theorem flatten_rows_length (f : CGMat4 → List ℚ) (h4 : ∀ t, (f t).length = 4)
    (ts : List CGMat4) : ((ts.map f).flatten).length = 4 * ts.length := by
  induction ts with
  | nil => rfl
  | cons t rest ih =>
    simp only [List.map_cons, List.flatten_cons, List.length_append, ih, h4,
      List.length_cons]
    omega

/-- C9: for a transform list of length K, `update_transformations` fills the
three per-instance buffers with exactly 4 K entries each — the first, second
and third rows of each matrix, 4 entries per row per instance, in order —
sets the instance count to K (the u32 cast is exact below 2 to the 32), and a
subsequent `transformations()` read returns exactly the K matrices supplied,
in order. -/
theorem claim_C9_instance_packing (β : Type) (aabbEmpty : β)
    (expand : β → β → β) (transformAABB : β → CGMat4 → β)
    (ts : List CGMat4) (s : InstancedModelState β)
    (hlen : ts.length < 2 ^ 32) :
    (InstancedModelState.update_transformations aabbEmpty expand transformAABB
        ts s).instance_buffer1.length = 4 * ts.length ∧
    (InstancedModelState.update_transformations aabbEmpty expand transformAABB
        ts s).instance_buffer2.length = 4 * ts.length ∧
    (InstancedModelState.update_transformations aabbEmpty expand transformAABB
        ts s).instance_buffer3.length = 4 * ts.length ∧
    (InstancedModelState.update_transformations aabbEmpty expand transformAABB
        ts s).instance_buffer1 = (ts.map CGMat4.row1).flatten ∧
    (InstancedModelState.update_transformations aabbEmpty expand transformAABB
        ts s).instance_buffer2 = (ts.map CGMat4.row2).flatten ∧
    (InstancedModelState.update_transformations aabbEmpty expand transformAABB
        ts s).instance_buffer3 = (ts.map CGMat4.row3).flatten ∧
    (InstancedModelState.update_transformations aabbEmpty expand transformAABB
        ts s).instance_count = ts.length ∧
    (InstancedModelState.update_transformations aabbEmpty expand transformAABB
        ts s).transformations = ts := by
  have hpack := packRows_eq ts
  have h1 : (InstancedModelState.update_transformations aabbEmpty expand
      transformAABB ts s).instance_buffer1 = (ts.map CGMat4.row1).flatten := by
    simp [InstancedModelState.update_transformations,
      InstancedModelState.update_aabb, hpack]
  have h2 : (InstancedModelState.update_transformations aabbEmpty expand
      transformAABB ts s).instance_buffer2 = (ts.map CGMat4.row2).flatten := by
    simp [InstancedModelState.update_transformations,
      InstancedModelState.update_aabb, hpack]
  have h3 : (InstancedModelState.update_transformations aabbEmpty expand
      transformAABB ts s).instance_buffer3 = (ts.map CGMat4.row3).flatten := by
    simp [InstancedModelState.update_transformations,
      InstancedModelState.update_aabb, hpack]
  refine ⟨?_, ?_, ?_, h1, h2, h3, ?_, ?_⟩
  · rw [h1]
    exact flatten_rows_length CGMat4.row1 (fun t => rfl) ts
  · rw [h2]
    exact flatten_rows_length CGMat4.row2 (fun t => rfl) ts
  · rw [h3]
    exact flatten_rows_length CGMat4.row3 (fun t => rfl) ts
  · simp [InstancedModelState.update_transformations,
      InstancedModelState.update_aabb]
    have h32 : (2 : Nat) ^ 32 = 4294967296 := by norm_num
    omega
  · simp [InstancedModelState.update_transformations,
      InstancedModelState.update_aabb]

/-- C9 witness: two concrete transforms pack into three 8-entry buffers, an
instance count of 2 and an unchanged stored transform list. -/
theorem claim_C9_instance_packing_witness :
    (([⟨⟨1, 2, 3, 4⟩, ⟨5, 6, 7, 8⟩, ⟨9, 10, 11, 12⟩, ⟨13, 14, 15, 16⟩⟩,
        ⟨⟨21, 22, 23, 24⟩, ⟨25, 26, 27, 28⟩, ⟨29, 30, 31, 32⟩,
          ⟨33, 34, 35, 36⟩⟩] : List CGMat4).length < 2 ^ 32) ∧
    ((InstancedModelState.update_transformations () (fun _ _ => ())
        (fun _ _ => ())
        [⟨⟨1, 2, 3, 4⟩, ⟨5, 6, 7, 8⟩, ⟨9, 10, 11, 12⟩, ⟨13, 14, 15, 16⟩⟩,
          ⟨⟨21, 22, 23, 24⟩, ⟨25, 26, 27, 28⟩, ⟨29, 30, 31, 32⟩,
            ⟨33, 34, 35, 36⟩⟩]
        ⟨0, [], [], [], (), (),
          ⟨⟨1, 0, 0, 0⟩, ⟨0, 1, 0, 0⟩, ⟨0, 0, 1, 0⟩, ⟨0, 0, 0, 1⟩⟩,
          []⟩).instance_buffer1.length = 4 * 2 ∧
      (InstancedModelState.update_transformations () (fun _ _ => ())
        (fun _ _ => ())
        [⟨⟨1, 2, 3, 4⟩, ⟨5, 6, 7, 8⟩, ⟨9, 10, 11, 12⟩, ⟨13, 14, 15, 16⟩⟩,
          ⟨⟨21, 22, 23, 24⟩, ⟨25, 26, 27, 28⟩, ⟨29, 30, 31, 32⟩,
            ⟨33, 34, 35, 36⟩⟩]
        ⟨0, [], [], [], (), (),
          ⟨⟨1, 0, 0, 0⟩, ⟨0, 1, 0, 0⟩, ⟨0, 0, 1, 0⟩, ⟨0, 0, 0, 1⟩⟩,
          []⟩).instance_count = 2 ∧
      (InstancedModelState.update_transformations () (fun _ _ => ())
        (fun _ _ => ())
        [⟨⟨1, 2, 3, 4⟩, ⟨5, 6, 7, 8⟩, ⟨9, 10, 11, 12⟩, ⟨13, 14, 15, 16⟩⟩,
          ⟨⟨21, 22, 23, 24⟩, ⟨25, 26, 27, 28⟩, ⟨29, 30, 31, 32⟩,
            ⟨33, 34, 35, 36⟩⟩]
        ⟨0, [], [], [], (), (),
          ⟨⟨1, 0, 0, 0⟩, ⟨0, 1, 0, 0⟩, ⟨0, 0, 1, 0⟩, ⟨0, 0, 0, 1⟩⟩,
          []⟩).transformations =
        [⟨⟨1, 2, 3, 4⟩, ⟨5, 6, 7, 8⟩, ⟨9, 10, 11, 12⟩, ⟨13, 14, 15, 16⟩⟩,
          ⟨⟨21, 22, 23, 24⟩, ⟨25, 26, 27, 28⟩, ⟨29, 30, 31, 32⟩,
            ⟨33, 34, 35, 36⟩⟩]) := by
  have h := claim_C9_instance_packing Unit () (fun _ _ => ()) (fun _ _ => ())
    [⟨⟨1, 2, 3, 4⟩, ⟨5, 6, 7, 8⟩, ⟨9, 10, 11, 12⟩, ⟨13, 14, 15, 16⟩⟩,
      ⟨⟨21, 22, 23, 24⟩, ⟨25, 26, 27, 28⟩, ⟨29, 30, 31, 32⟩, ⟨33, 34, 35, 36⟩⟩]
    ⟨0, [], [], [], (), (),
      ⟨⟨1, 0, 0, 0⟩, ⟨0, 1, 0, 0⟩, ⟨0, 0, 1, 0⟩, ⟨0, 0, 0, 1⟩⟩, []⟩
    (by norm_num)
  exact ⟨by norm_num, h.1, h.2.2.2.2.2.2.1, h.2.2.2.2.2.2.2⟩

/-- C10: both `Model::set_transformation` and the deprecated
`Mesh::set_transformation` invert the supplied transform through an unchecked
unwrap, so they panic exactly when the transform is not invertible; on an
invertible transform they succeed, set the normal matrix to the transpose of
the inverse, and the model variant also sets the AABB to the local AABB
transformed by the new transform. -/
theorem claim_C10_singular_transform_panics :
    (∀ (β : Type) (transformAABB : β → Mat4Q → β) (t : Mat4Q) (s : ModelState β),
      Model.set_transformation transformAABB t s = Option.none ↔ ¬ IsUnit t) ∧
    (∀ (t : Mat4Q) (s : MeshTransformState),
      Mesh.set_transformation t s = Option.none ↔ ¬ IsUnit t) ∧
    (∀ (β : Type) (transformAABB : β → Mat4Q → β) (t : Mat4Q) (s : ModelState β),
      t.det ≠ 0 →
      Model.set_transformation transformAABB t s =
        some { s with
          transformation := t,
          normal_transformation := (t⁻¹).transpose,
          aabb := transformAABB s.aabb_local t }) ∧
    (∀ (t : Mat4Q) (s : MeshTransformState),
      t.det ≠ 0 →
      Mesh.set_transformation t s = some ⟨t, (t⁻¹).transpose⟩) := by
  have hdet : ∀ t : Mat4Q, (¬ IsUnit t) ↔ t.det = 0 := by
    intro t
    rw [Matrix.isUnit_iff_isUnit_det, isUnit_iff_ne_zero, not_not]
  have hinv : ∀ t : Mat4Q, t.det ≠ 0 → t.det⁻¹ • t.adjugate = t⁻¹ := by
    intro t _
    rw [Matrix.inv_def, Ring.inverse_eq_inv]
  refine ⟨?_, ?_, ?_, ?_⟩
  · intro β transformAABB t s
    rw [hdet]
    unfold Model.set_transformation cgInvert
    by_cases h : t.det = 0
    · simp [h]
    · simp [h]
  · intro t s
    rw [hdet]
    unfold Mesh.set_transformation cgInvert
    by_cases h : t.det = 0
    · simp [h]
    · simp [h]
  · intro β transformAABB t s h
    unfold Model.set_transformation cgInvert
    rw [if_neg h]
    simp [hinv t h]
  · intro t s h
    unfold Mesh.set_transformation cgInvert
    rw [if_neg h]
    simp [hinv t h]

/-- C10 witness: the zero matrix is singular and makes both setters panic;
the identity succeeds with the expected normal matrix and AABB. -/
theorem claim_C10_singular_transform_panics_witness :
    (¬ IsUnit (0 : Mat4Q) ∧
      Model.set_transformation (fun (a : Unit) (_ : Mat4Q) => a) 0
        ⟨1, 1, (), ()⟩ = Option.none ∧
      Mesh.set_transformation 0 ⟨1, 1⟩ = Option.none) ∧
    ((1 : Mat4Q).det ≠ 0 ∧
      Model.set_transformation (fun (a : Unit) (_ : Mat4Q) => a) 1
        ⟨0, 0, (), ()⟩ = some ⟨1, ((1 : Mat4Q)⁻¹).transpose, (), ()⟩ ∧
      Mesh.set_transformation 1 ⟨0, 0⟩ = some ⟨1, ((1 : Mat4Q)⁻¹).transpose⟩) := by
  have hzero : ¬ IsUnit (0 : Mat4Q) := not_isUnit_zero
  have hone : (1 : Mat4Q).det ≠ 0 := by
    rw [Matrix.det_one]
    exact one_ne_zero
  refine ⟨⟨hzero, ?_, ?_⟩, hone, ?_, ?_⟩
  · exact (claim_C10_singular_transform_panics.1 Unit (fun a _ => a) 0
      ⟨1, 1, (), ()⟩).mpr hzero
  · exact (claim_C10_singular_transform_panics.2.1 0 ⟨1, 1⟩).mpr hzero
  · exact claim_C10_singular_transform_panics.2.2.1 Unit (fun a _ => a) 1
      ⟨0, 0, (), ()⟩ hone
  · exact claim_C10_singular_transform_panics.2.2.2 1 ⟨0, 0⟩ hone

/-- Rust `str::find` succeeds exactly on contiguous-substring containment. -/
theorem strFind_isSome_iff (needle hay : List Char) :
    (strFind needle hay).isSome = true ↔ occursIn needle hay := by
  induction hay with
  | nil =>
    simp only [strFind, occursIn]
    constructor
    · intro h
      have hn : needle = [] := by
        by_contra hne
        simp [hne] at h
      exact ⟨[], [], by simp [hn]⟩
    · rintro ⟨pre, post, h⟩
      have h1 := List.append_eq_nil.mp h.symm
      have h2 := List.append_eq_nil.mp h1.1
      simp [h2.2]
  | cons c rest ih =>
    simp only [strFind]
    by_cases hp : needle.isPrefixOf (c :: rest) = true
    · simp only [hp, if_true]
      constructor
      · intro _
        obtain ⟨t, ht⟩ := List.isPrefixOf_iff_prefix.mp hp
        exact ⟨[], t, by simp [ht.symm]⟩
      · intro _; rfl
    · rw [if_neg hp]
      have hmap : (Option.map (fun x => x + 1) (strFind needle rest)).isSome
          = (strFind needle rest).isSome := by
        cases strFind needle rest <;> rfl
      rw [hmap, ih]
      constructor
      · rintro ⟨pre, post, h⟩
        exact ⟨c :: pre, post, by simp [h]⟩
      · rintro ⟨pre, post, h⟩
        match pre, h with
        | [], h =>
          exfalso
          apply hp
          exact List.isPrefixOf_iff_prefix.mpr ⟨post, by simpa using h.symm⟩
        | p :: pre2, h =>
          have hc : c = p ∧ rest = pre2 ++ needle ++ post := by
            constructor
            · exact (List.cons_eq_cons.mp (by simpa using h)).1
            · exact (List.cons_eq_cons.mp (by simpa using h)).2
          exact ⟨pre2, post, hc.2⟩

/-- C8: for every fragment-shader source, `Mesh::vertex_shader_source` emits
each of the four define directives if and only if the source contains the
corresponding literal sentinel substring, in the fixed order positions,
normals, uvs, colors, followed by the shared and vertex shader text. -/
theorem claim_C8_vertex_shader_defines (sharedFrag meshVert frag : List Char) :
    ∃ usePos useNor useUV useCol : Bool,
      (usePos = true ↔ occursIn posSentinel frag) ∧
      (useNor = true ↔ occursIn norSentinel frag) ∧
      (useUV = true ↔ occursIn uvsSentinel frag) ∧
      (useCol = true ↔ occursIn colSentinel frag) ∧
      Mesh.vertex_shader_source sharedFrag meshVert frag =
        (if usePos then usePositionsDefine else []) ++
          ((if useNor then useNormalsDefine else []) ++
            ((if useUV then useUVsDefine else []) ++
              ((if useCol then useColorsDefine else []) ++ (sharedFrag ++ meshVert)))) := by
  refine ⟨(strFind posSentinel frag).isSome, (strFind norSentinel frag).isSome,
    (strFind uvsSentinel frag).isSome, (strFind colSentinel frag).isSome,
    strFind_isSome_iff _ _, strFind_isSome_iff _ _, strFind_isSome_iff _ _,
    strFind_isSome_iff _ _, rfl⟩

/-- C5: applying a `ClearState` sets the write mask per channel from presence
of that clear value, and a `write` with `ClearState::none()` and an empty
render callback leaves every pre-existing pixel value in every color and depth
channel unchanged, for every attachment combination and prior contents. -/
theorem claim_C5_clear_state_none_no_op :
    (∀ (s : ClearState) (c : GLContext),
        (ClearState.apply s c).writeMask =
          ⟨s.red.isSome, s.green.isSome, s.blue.isSome, s.alpha.isSome, s.depth.isSome⟩) ∧
    (∀ (hasColorTexture hasDepthTexture : Bool) (layers : List Nat) (dl : Nat) (c : GLContext),
        (RenderTargetArray.write hasColorTexture hasDepthTexture layers dl
          ClearState.none (fun x => x) c).fb = c.fb) ∧
    (∀ c : GLContext, (ClearState.apply ClearState.none c).fb = c.fb) := by
  refine ⟨?_, ?_, ?_⟩
  · intro s c
    obtain ⟨r, g, b, a, d⟩ := s
    cases r <;> cases g <;> cases b <;> cases a <;> cases d <;> rfl
  · intro hc hd layers dl c
    cases hc <;> cases hd <;> rfl
  · intro c
    rfl

/-- C1 counterexample: with `debug_type` NONE, an ambient light present and
no directional, spot or point lights, the light pass succeeds but does not
bind the uniform viewProjectionInverse, refuting the claim that the binding
happens whenever at least one light of any kind (ambient included) is
present. -/
theorem claim_C1_counterexample :
    ∃ q, DeferredPipeline.light_pass
        ⟨[], false, DebugType.NONE, LightingModel.Blinn⟩
        ⟨⟨100, 100⟩, 1, 1, ⟨0, 0, 0⟩⟩ (some ⟨0⟩) [] [] [] = some q ∧
      ¬ ("viewProjectionInverse" ∈ uniformMat4Names q.2 ↔
          ((some (AmbientLight.mk 0)).isSome = true ∨
            ([] : List DirectionalLight) ≠ [] ∨ ([] : List SpotLight) ≠ [] ∨
            ([] : List PointLight) ≠ [])) := by
  refine ⟨_, rfl, ?_⟩
  intro hiff
  have hmem := hiff.mpr (Or.inl rfl)
  simp [uniformMat4Names] at hmem

/-- C1 amended: in non-debug mode, the uniform viewProjectionInverse is bound
if and only if at least one directional, spot or point light is present; an
ambient light alone does not cause the binding, and with every light argument
empty or absent it is not bound. -/
theorem claim_C1_amended_vp_binding (s : DeferredPipeline) (camera : Camera)
    (ambient : Option AmbientLight) (dir : List DirectionalLight)
    (spot : List SpotLight) (point : List PointLight)
    (q : DeferredPipeline × List LPEvent)
    (hdebug : s.debug_type = DebugType.NONE)
    (hres : s.light_pass camera ambient dir spot point = some q) :
    "viewProjectionInverse" ∈ uniformMat4Names q.2 ↔
      (dir ≠ [] ∨ spot ≠ [] ∨ point ≠ []) := by
  simp only [DeferredPipeline.light_pass, hdebug, ne_eq, not_true_eq_false,
    if_false, Bool.false_eq_true] at hres
  by_cases hl : (!dir.isEmpty || !spot.isEmpty || !point.isEmpty) = true
  · rw [if_pos hl] at hres
    have hl2 : dir ≠ [] ∨ spot ≠ [] ∨ point ≠ [] := by
      simpa [Bool.or_eq_true, Bool.not_eq_true', List.isEmpty_eq_false, or_assoc] using hl
    cases hinv : cgInvert (camera.projection * camera.view) with
    | none => rw [hinv] at hres; exact absurd hres (by simp)
    | some vp =>
      rw [hinv] at hres
      have hq := (Option.some.injEq _ _).mp hres
      subst hq
      by_cases hmem : shaded_fragment_shader s.lighting_model Option.none
          dir.length spot.length point.length ∈ s.program_map
      · simp [hmem, uniformMat4Names, hl2]
      · simp [hmem, uniformMat4Names, hl2]
  · rw [if_neg hl] at hres
    have hl2 : dir = [] ∧ spot = [] ∧ point = [] := by
      refine ⟨?_, ?_, ?_⟩
      · by_contra hd
        apply hl
        simp [List.isEmpty_eq_false, hd]
      · by_contra hd
        apply hl
        simp [List.isEmpty_eq_false, hd]
      · by_contra hd
        apply hl
        simp [List.isEmpty_eq_false, hd]
    obtain ⟨he1, he2, he3⟩ := hl2
    subst he1
    subst he2
    subst he3
    have hq := (Option.some.injEq _ _).mp hres
    subst hq
    by_cases hmem : shaded_fragment_shader s.lighting_model Option.none 0 0 0 ∈ s.program_map
    · simp [hmem, uniformMat4Names]
    · simp [hmem, uniformMat4Names]

/-- Characterisation of a successful light pass in debug mode: the resulting
state only allocates the debug effect, and the trace is the lazy compile of
the fixed debug shader followed by the debug-effect bindings and one apply. -/
theorem light_pass_debug_spec (s : DeferredPipeline) (camera : Camera)
    (ambient : Option AmbientLight) (dir : List DirectionalLight)
    (spot : List SpotLight) (point : List PointLight)
    (q : DeferredPipeline × List LPEvent)
    (hdt : s.debug_type ≠ DebugType.NONE)
    (hres : s.light_pass camera ambient dir spot point = some q) :
    q.1 = (if s.debug_effect then s else { s with debug_effect := true }) ∧
    q.2 = (if s.debug_effect then ([] : List LPEvent)
        else [LPEvent.compileProgram debugFragSource]) ++
      [LPEvent.useUniformMat4 "viewProjectionInverse",
        LPEvent.useTextureArray "gbuffer", LPEvent.useTextureArray "depthMap",
        LPEvent.useUniformInt "type" s.debug_type.code, LPEvent.applyEffect] := by
  simp only [DeferredPipeline.light_pass, if_pos hdt] at hres
  cases hinv : cgInvert (camera.projection * camera.view) with
  | none => rw [hinv] at hres; exact absurd hres (by simp)
  | some vp =>
    rw [hinv] at hres
    have hq := (Option.some.injEq _ _).mp hres
    subst hq
    by_cases hde : s.debug_effect
    · simp [hde]
    · simp [hde]

/-- Characterisation of a successful light pass in non-debug mode: the
program cache gains the derived key exactly on a miss, and the trace is the
cache activity, the light and texture bindings, the conditional inverse
view-projection binding and one apply. -/
theorem light_pass_nondebug_spec (s : DeferredPipeline) (camera : Camera)
    (ambient : Option AmbientLight) (dir : List DirectionalLight)
    (spot : List SpotLight) (point : List PointLight)
    (q : DeferredPipeline × List LPEvent)
    (hdt : s.debug_type = DebugType.NONE)
    (hres : s.light_pass camera ambient dir spot point = some q) :
    q.1 = (if shaded_fragment_shader s.lighting_model Option.none
          dir.length spot.length point.length ∈ s.program_map then s
      else { s with program_map := (shaded_fragment_shader s.lighting_model
          Option.none dir.length spot.length point.length) :: s.program_map }) ∧
    q.2 = (if shaded_fragment_shader s.lighting_model Option.none
          dir.length spot.length point.length ∈ s.program_map then
        [LPEvent.cacheLookup (shaded_fragment_shader s.lighting_model Option.none
          dir.length spot.length point.length)]
      else
        [LPEvent.cacheLookup (shaded_fragment_shader s.lighting_model Option.none
            dir.length spot.length point.length),
          LPEvent.compileProgram (shaded_fragment_shader s.lighting_model Option.none
            dir.length spot.length point.length),
          LPEvent.cacheInsert (shaded_fragment_shader s.lighting_model Option.none
            dir.length spot.length point.length)]) ++
      [LPEvent.cacheLookup (shaded_fragment_shader s.lighting_model Option.none
          dir.length spot.length point.length),
        LPEvent.bindLights ambient dir spot point camera.position,
        LPEvent.useTextureArray "gbuffer", LPEvent.useTextureArray "depthMap"] ++
      (if (!dir.isEmpty || !spot.isEmpty || !point.isEmpty) = true then
        [LPEvent.useUniformMat4 "viewProjectionInverse", LPEvent.applyEffect]
      else [LPEvent.applyEffect]) := by
  simp only [DeferredPipeline.light_pass, hdt, ne_eq, not_true_eq_false,
    if_false, Bool.false_eq_true] at hres
  by_cases hmem : shaded_fragment_shader s.lighting_model Option.none
      dir.length spot.length point.length ∈ s.program_map
  · rw [if_pos hmem] at hres
    by_cases hl : (!dir.isEmpty || !spot.isEmpty || !point.isEmpty) = true
    · rw [if_pos hl] at hres
      cases hinv : cgInvert (camera.projection * camera.view) with
      | none => rw [hinv] at hres; exact absurd hres (by simp)
      | some vp =>
        rw [hinv] at hres
        have hq := (Option.some.injEq _ _).mp hres
        subst hq
        simp [hmem, hl, hdt]
    · rw [if_neg hl] at hres
      have hq := (Option.some.injEq _ _).mp hres
      subst hq
      simp [hmem, hl, hdt]
  · rw [if_neg hmem] at hres
    by_cases hl : (!dir.isEmpty || !spot.isEmpty || !point.isEmpty) = true
    · rw [if_pos hl] at hres
      cases hinv : cgInvert (camera.projection * camera.view) with
      | none => rw [hinv] at hres; exact absurd hres (by simp)
      | some vp =>
        rw [hinv] at hres
        have hq := (Option.some.injEq _ _).mp hres
        subst hq
        simp [hmem, hl, hdt]
    · rw [if_neg hl] at hres
      have hq := (Option.some.injEq _ _).mp hres
      subst hq
      simp [hmem, hl, hdt]

/-- Any successful light pass only ever extends the program cache: every key
present before the call is present after it. -/
theorem light_pass_map_mono (s : DeferredPipeline) (camera : Camera)
    (ambient : Option AmbientLight) (dir : List DirectionalLight)
    (spot : List SpotLight) (point : List PointLight)
    (q : DeferredPipeline × List LPEvent)
    (hres : s.light_pass camera ambient dir spot point = some q) :
    ∀ k ∈ s.program_map, k ∈ q.1.program_map := by
  intro k hk
  by_cases hdt : s.debug_type = DebugType.NONE
  · have h1 := (light_pass_nondebug_spec s camera ambient dir spot point q hdt hres).1
    rw [h1]
    split
    · exact hk
    · exact List.mem_cons_of_mem _ hk
  · have h1 := (light_pass_debug_spec s camera ambient dir spot point q hdt hres).1
    rw [h1]
    split
    · exact hk
    · exact hk

/-- C2: with debug mode active, the light pass renders only the debug
visualization and returns: the result is independent of every light argument,
the program cache is unchanged, no cache lookup or insert happens, no light is
bound, and the only compile possibly issued is the lazy one of the fixed
debug shader on the first debug call. -/
theorem claim_C2_debug_ignores_lights :
    (∀ (s : DeferredPipeline) (camera : Camera) (a1 : Option AmbientLight)
        (d1 : List DirectionalLight) (sp1 : List SpotLight) (p1 : List PointLight)
        (a2 : Option AmbientLight) (d2 : List DirectionalLight)
        (sp2 : List SpotLight) (p2 : List PointLight),
      s.debug_type ≠ DebugType.NONE →
      s.light_pass camera a1 d1 sp1 p1 = s.light_pass camera a2 d2 sp2 p2) ∧
    (∀ (s : DeferredPipeline) (camera : Camera) (a : Option AmbientLight)
        (d : List DirectionalLight) (sp : List SpotLight) (pt : List PointLight)
        (q : DeferredPipeline × List LPEvent),
      s.debug_type ≠ DebugType.NONE →
      s.light_pass camera a d sp pt = some q →
      q.1.program_map = s.program_map ∧
      (∀ key, LPEvent.cacheLookup key ∉ q.2) ∧
      (∀ key, LPEvent.cacheInsert key ∉ q.2) ∧
      (∀ source, LPEvent.compileProgram source ∈ q.2 →
        source = debugFragSource ∧ s.debug_effect = false) ∧
      (∀ amb dl sl pl pos, LPEvent.bindLights amb dl sl pl pos ∉ q.2) ∧
      q.2 = (if s.debug_effect then ([] : List LPEvent)
          else [LPEvent.compileProgram debugFragSource]) ++
        [LPEvent.useUniformMat4 "viewProjectionInverse",
          LPEvent.useTextureArray "gbuffer", LPEvent.useTextureArray "depthMap",
          LPEvent.useUniformInt "type" s.debug_type.code, LPEvent.applyEffect]) := by
  constructor
  · intro s camera a1 d1 sp1 p1 a2 d2 sp2 p2 hdt
    simp only [DeferredPipeline.light_pass, if_pos hdt]
  · intro s camera a d sp pt q hdt hres
    obtain ⟨h1, h2⟩ := light_pass_debug_spec s camera a d sp pt q hdt hres
    refine ⟨?_, ?_, ?_, ?_, ?_, h2⟩
    · rw [h1]; split <;> rfl
    · intro key
      rw [h2]
      by_cases hde : s.debug_effect <;> simp [hde]
    · intro key
      rw [h2]
      by_cases hde : s.debug_effect <;> simp [hde]
    · intro source hsrc
      rw [h2] at hsrc
      by_cases hde : s.debug_effect
      · rw [if_pos hde] at hsrc
        simp at hsrc
      · rw [if_neg hde] at hsrc
        simp at hsrc
        exact ⟨hsrc, by simpa using hde⟩
    · intro amb dl sl pl pos
      rw [h2]
      by_cases hde : s.debug_effect <;> simp [hde]

/-- C2 witness: a concrete debug-mode pipeline gives the same result for two
different sets of lights, keeps its one-key cache and inserts nothing. -/
theorem claim_C2_debug_ignores_lights_witness :
    (DebugType.DEPTH ≠ DebugType.NONE) ∧
    (DeferredPipeline.light_pass ⟨["k"], false, DebugType.DEPTH, LightingModel.Blinn⟩
        ⟨⟨8, 8⟩, 1, 1, ⟨0, 0, 0⟩⟩ (some ⟨7⟩) [⟨1⟩, ⟨2⟩] [⟨3⟩] [] =
      DeferredPipeline.light_pass ⟨["k"], false, DebugType.DEPTH, LightingModel.Blinn⟩
        ⟨⟨8, 8⟩, 1, 1, ⟨0, 0, 0⟩⟩ Option.none [] [] [⟨9⟩]) ∧
    (∃ q, DeferredPipeline.light_pass ⟨["k"], false, DebugType.DEPTH, LightingModel.Blinn⟩
        ⟨⟨8, 8⟩, 1, 1, ⟨0, 0, 0⟩⟩ Option.none [] [] [] = some q ∧
      q.1.program_map = ["k"] ∧ ∀ key, LPEvent.cacheInsert key ∉ q.2) := by
  refine ⟨by decide, ?_, ?_⟩
  · exact claim_C2_debug_ignores_lights.1 _ _ _ _ _ _ _ _ _ _ (by decide)
  · have hex : ∃ q, DeferredPipeline.light_pass
        ⟨["k"], false, DebugType.DEPTH, LightingModel.Blinn⟩
        ⟨⟨8, 8⟩, 1, 1, ⟨0, 0, 0⟩⟩ Option.none [] [] [] = some q := by
      simp [DeferredPipeline.light_pass, cgInvert, Matrix.one_mul, Matrix.det_one]
    obtain ⟨q, hq⟩ := hex
    have h := claim_C2_debug_ignores_lights.2 _ _ _ _ _ _ q (by decide) hq
    exact ⟨q, hq, h.1, h.2.2.1⟩

/-- C3: the program cache is keyed by the exact generated fragment-shader
source string, a program is inserted exactly on a cache miss, no entry is ever
removed, the key set grows monotonically over every sequence of light-pass
calls, and after a successful non-debug call the key derived from the lighting
model and the light-count triple is present. -/
theorem claim_C3_program_cache_monotone :
    (∀ (s : DeferredPipeline) (camera : Camera) (ambient : Option AmbientLight)
        (dir : List DirectionalLight) (spot : List SpotLight)
        (point : List PointLight) (q : DeferredPipeline × List LPEvent),
      s.light_pass camera ambient dir spot point = some q →
      ∀ k ∈ s.program_map, k ∈ q.1.program_map) ∧
    (∀ (s : DeferredPipeline) (camera : Camera) (ambient : Option AmbientLight)
        (dir : List DirectionalLight) (spot : List SpotLight)
        (point : List PointLight) (q : DeferredPipeline × List LPEvent),
      s.debug_type = DebugType.NONE →
      s.light_pass camera ambient dir spot point = some q →
      shaded_fragment_shader s.lighting_model Option.none dir.length spot.length
          point.length ∈ q.1.program_map ∧
      (shaded_fragment_shader s.lighting_model Option.none dir.length spot.length
          point.length ∈ s.program_map →
        q.1.program_map = s.program_map ∧
        LPEvent.cacheInsert (shaded_fragment_shader s.lighting_model Option.none
          dir.length spot.length point.length) ∉ q.2) ∧
      (shaded_fragment_shader s.lighting_model Option.none dir.length spot.length
          point.length ∉ s.program_map →
        q.1.program_map = (shaded_fragment_shader s.lighting_model Option.none
          dir.length spot.length point.length) :: s.program_map ∧
        LPEvent.cacheInsert (shaded_fragment_shader s.lighting_model Option.none
          dir.length spot.length point.length) ∈ q.2)) ∧
    (∀ (s : DeferredPipeline) (calls : List LPCall) (s2 : DeferredPipeline),
      DeferredPipeline.runLightPasses s calls = some s2 →
      ∀ k ∈ s.program_map, k ∈ s2.program_map) := by
  refine ⟨fun s camera ambient dir spot point q hres =>
    light_pass_map_mono s camera ambient dir spot point q hres, ?_, ?_⟩
  · intro s camera ambient dir spot point q hdt hres
    obtain ⟨h1, h2⟩ := light_pass_nondebug_spec s camera ambient dir spot point q hdt hres
    by_cases hl : (!dir.isEmpty || !spot.isEmpty || !point.isEmpty) = true
    · refine ⟨?_, ?_, ?_⟩
      · rw [h1]
        split_ifs with hmem
        · exact hmem
        · exact List.mem_cons_self _ _
      · intro hmem
        exact ⟨by rw [h1, if_pos hmem], by simp [h2, hmem, hl]⟩
      · intro hmem
        exact ⟨by rw [h1, if_neg hmem], by simp [h2, hmem, hl]⟩
    · refine ⟨?_, ?_, ?_⟩
      · rw [h1]
        split_ifs with hmem
        · exact hmem
        · exact List.mem_cons_self _ _
      · intro hmem
        exact ⟨by rw [h1, if_pos hmem], by simp [h2, hmem, hl]⟩
      · intro hmem
        exact ⟨by rw [h1, if_neg hmem], by simp [h2, hmem, hl]⟩
  · intro s calls
    induction calls generalizing s with
    | nil =>
      intro s2 h2 k hk
      simp only [DeferredPipeline.runLightPasses] at h2
      have := (Option.some.injEq _ _).mp h2
      rwa [← this]
    | cons c rest ih =>
      intro s2 h2 k hk
      simp only [DeferredPipeline.runLightPasses] at h2
      cases hstep : s.light_pass c.camera c.ambient c.directional c.spot c.point with
      | none => rw [hstep] at h2; exact absurd h2 (by simp)
      | some q =>
        rw [hstep] at h2
        exact ih q.1 s2 h2 k
          (light_pass_map_mono s c.camera c.ambient c.directional c.spot c.point q hstep k hk)

/-- C3 witness: a first concrete non-debug call with no lights misses the
empty cache, inserts the derived key, and a one-call sequence preserves and
extends the key set. -/
theorem claim_C3_program_cache_monotone_witness :
    ∃ q, DeferredPipeline.light_pass ⟨[], false, DebugType.NONE, LightingModel.Blinn⟩
        ⟨⟨8, 8⟩, 1, 1, ⟨0, 0, 0⟩⟩ Option.none [] [] [] = some q ∧
      shaded_fragment_shader LightingModel.Blinn Option.none 0 0 0 ∈ q.1.program_map ∧
      q.1.program_map = [shaded_fragment_shader LightingModel.Blinn Option.none 0 0 0] ∧
      LPEvent.cacheInsert (shaded_fragment_shader LightingModel.Blinn Option.none 0 0 0) ∈ q.2 ∧
      ∃ s2, DeferredPipeline.runLightPasses
          ⟨[], false, DebugType.NONE, LightingModel.Blinn⟩
          [⟨⟨⟨8, 8⟩, 1, 1, ⟨0, 0, 0⟩⟩, Option.none, [], [], []⟩] = some s2 ∧
        ∀ k ∈ ([] : List String), k ∈ s2.program_map := by
  have hex : ∃ q, DeferredPipeline.light_pass
      ⟨[], false, DebugType.NONE, LightingModel.Blinn⟩
      ⟨⟨8, 8⟩, 1, 1, ⟨0, 0, 0⟩⟩ Option.none [] [] [] = some q := by
    simp [DeferredPipeline.light_pass]
  obtain ⟨q, hq⟩ := hex
  have h := claim_C3_program_cache_monotone.2.1 _ _ _ _ _ _ q rfl hq
  have hmiss := h.2.2 (by simp)
  have hrun : ∃ s2, DeferredPipeline.runLightPasses
      ⟨[], false, DebugType.NONE, LightingModel.Blinn⟩
      [⟨⟨⟨8, 8⟩, 1, 1, ⟨0, 0, 0⟩⟩, Option.none, [], [], []⟩] = some s2 := by
    simp [DeferredPipeline.runLightPasses, DeferredPipeline.light_pass]
  obtain ⟨s2, hs2⟩ := hrun
  exact ⟨q, hq, h.1, by simpa using hmiss.1, hmiss.2,
    s2, hs2, claim_C3_program_cache_monotone.2.2 _ _ s2 hs2⟩

/-- C1 amended witness: one concrete call with a single directional light
binds the inverse view-projection matrix, exercising the amended claim. -/
theorem claim_C1_amended_vp_binding_witness :
    ∃ q, DeferredPipeline.light_pass
        ⟨[], false, DebugType.NONE, LightingModel.Blinn⟩
        ⟨⟨100, 100⟩, 1, 1, ⟨0, 0, 0⟩⟩ Option.none [⟨0⟩] [] [] = some q ∧
      ("viewProjectionInverse" ∈ uniformMat4Names q.2 ↔
        (([DirectionalLight.mk 0] : List DirectionalLight) ≠ [] ∨
          ([] : List SpotLight) ≠ [] ∨ ([] : List PointLight) ≠ [])) := by
  have hres : ∃ q, DeferredPipeline.light_pass
      ⟨[], false, DebugType.NONE, LightingModel.Blinn⟩
      ⟨⟨100, 100⟩, 1, 1, ⟨0, 0, 0⟩⟩ Option.none [⟨0⟩] [] [] = some q := by
    simp [DeferredPipeline.light_pass, cgInvert, Matrix.one_mul, Matrix.det_one]
  obtain ⟨q, hq⟩ := hres
  exact ⟨q, hq, claim_C1_amended_vp_binding _ _ _ _ _ _ q rfl hq⟩

end ThreeD
